import Mathlib

/-!
Shallow embedding of the viewer logic of `electron-pdfjs`.

The program is a React/Electron PDF viewer. Its reviewable logic lives in
`src/src/MainPage.tsx` (the component actually mounted by `src/src/main.tsx`)
and `src/src/App.tsx` (an alternative viewer with a `PdfViewer` child).

External behaviour (the pdf.js library, the DOM, the file dialog) is modelled
by explicit outcome parameters: each async call that can fail or return data
takes its result as an argument of the embedded function, and the list of
`render` calls issued to the library is returned as a trace.
-/

namespace ElectronPdfjs

/-- A parsed document handle, as returned by `pdfjsLib.getDocument(...).promise`;
the model keeps only the field the viewer reads, `numPages`. -/
structure PdfDoc where
  numPages : Int
  deriving Repr, DecidableEq

/-- One `page.render(...)` call issued to pdf.js by `MainPage.renderPage`
(`src/src/MainPage.tsx:28-69`): the page number passed to `getPage`, the canvas
buffer dimensions set just before the call, the device-pixel-ratio factor put
in the `transform` option, and whether the container was cleared
(`container.innerHTML = ''`) before the call. -/
structure RenderCall where
  page : Int
  canvasWidth : Rat
  canvasHeight : Rat
  transformDpr : Rat
  cleared : Bool
  deriving Repr, DecidableEq

/-- Outcome of the environment during one `renderPage` run: `getPage` may
reject, `canvas.getContext('2d')` may return `null`, and `page.render(...)`
may reject after the call was issued; on the last two the viewport dimensions
returned by `page.getViewport({scale: 1.5})` are known. Failure messages are
the text that ends up in the caught error (`err.message`, or the literal
`'Unknown error'` when the thrown value is not an `Error`). -/
inductive RenderOutcome where
  | getPageFail (msg : String)
  | noContext (vw vh : Rat)
  | renderFail (msg : String) (vw vh : Rat)
  | ok (vw vh : Rat)
  deriving Repr, DecidableEq

/-- `MainPage.renderPage` (`src/src/MainPage.tsx:28-69`). Returns the render
calls issued; `.error` carries the message of the rethrown exception together
with the calls issued before the throw. `dpr` is `window.devicePixelRatio`;
the code replaces a falsy value by `1` (`window.devicePixelRatio || 1`). -/
def renderPage (pdf : Option PdfDoc) (pageNum : Int) (dpr : Rat)
    (out : RenderOutcome) : Except (String × List RenderCall) (List RenderCall) :=
  match pdf with
  | none => .ok []
  | some _ =>
    match out with
    | .getPageFail msg => .error (msg, [])
    | .noContext _ _ => .error ("Could not get canvas context", [])
    | .renderFail msg vw vh =>
        let d := if dpr = 0 then 1 else dpr
        .error (msg, [⟨pageNum, vw * d, vh * d, d, true⟩])
    | .ok vw vh =>
        let d := if dpr = 0 then 1 else dpr
        .ok [⟨pageNum, vw * d, vh * d, d, true⟩]

/-- The React state of `MainPage` (`src/src/MainPage.tsx:13-21`), plus the
`pdfInstance` ref. -/
structure MState where
  error : Option String
  isLoading : Bool
  title : String
  currentPage : Int
  totalPages : Int
  isDragging : Bool
  pdf : Option PdfDoc
  deriving Repr, DecidableEq

/-- The initial state of `MainPage`. -/
def initState : MState :=
  { error := none, isLoading := false, title := "Elegant PDF Viewer",
    currentPage := 1, totalPages := 0, isDragging := false, pdf := none }

/-- `MainPage.goToPage` (`src/src/MainPage.tsx:154-169`). `hasContainer`
models `viewerContainerRef.current` being non-null. Returns the final state
and the trace of render calls issued. -/
def goToPage (s : MState) (pageNum : Int) (dpr : Rat) (hasContainer : Bool)
    (out : RenderOutcome) : MState × List RenderCall :=
  if s.pdf = none ∨ pageNum < 1 ∨ pageNum > s.totalPages then (s, [])
  else
    let s1 := { s with isLoading := true, currentPage := pageNum }
    if hasContainer then
      match renderPage s1.pdf pageNum dpr out with
      | .ok calls => ({ s1 with isLoading := false }, calls)
      | .error (msg, calls) =>
          ({ s1 with error := some ("Error navigating to page: " ++ msg),
                     isLoading := false }, calls)
    else ({ s1 with isLoading := false }, [])

/-- Outcome of `pdfjsLib.getDocument(...).promise` inside `loadPdf`. -/
inductive LoadOutcome where
  | loadFail (msg : String)
  | loadOk (doc : PdfDoc)
  deriving Repr, DecidableEq

/-- The title computation of `loadPdf`
(`filePathOrUrl.split(/[\\/]/).pop() || 'PDF Document'`,
`src/src/MainPage.tsx:99`): last path segment, with the JS falsiness of the
empty string sending `""` to the default title. -/
def fileNameOf (p : String) : String :=
  let parts := p.split (fun c => c == '/' || c == '\\')
  let last := (parts.getLast?).getD ""
  if last = "" then "PDF Document" else last

/-- `MainPage.loadPdf` (`src/src/MainPage.tsx:71-113`). It sets
`isLoading := true` and `error := none`, awaits the document, stores the
handle, sets `totalPages` and the title, renders page 1 when the container
exists, converts any thrown error to `Error loading PDF: <msg>`, and resets
`isLoading` in the `finally` block. The `isUrl` branch only selects the
argument shape of `getDocument` and is behaviourally identical here. -/
def loadPdf (s : MState) (filePathOrUrl : String) (lout : LoadOutcome)
    (dpr : Rat) (hasContainer : Bool) (rout : RenderOutcome) :
    MState × List RenderCall :=
  match lout with
  | .loadFail msg =>
      ({ s with error := some ("Error loading PDF: " ++ msg),
                isLoading := false }, [])
  | .loadOk doc =>
      let s2 := { s with
        isLoading := true, error := none, pdf := some doc,
        totalPages := doc.numPages, title := fileNameOf filePathOrUrl }
      if hasContainer then
        match renderPage s2.pdf 1 dpr rout with
        | .ok cs => ({ s2 with isLoading := false }, cs)
        | .error (msg, cs) =>
            ({ s2 with error := some ("Error loading PDF: " ++ msg),
                       isLoading := false }, cs)
      else ({ s2 with isLoading := false }, [])

/-- Outcome of `window.electronAPI.openPdf()`: the IPC call may reject, the
user may cancel the dialog (resolves `null`), or a path is chosen. -/
inductive DialogOutcome where
  | dialogFail (msg : String)
  | cancelled
  | chosen (path : String)
  deriving Repr, DecidableEq

/-- `MainPage.handleOpenPdf`, Electron branch (`src/src/MainPage.tsx:119-152`):
`loadPdf` catches internally, so only a rejection of `openPdf()` itself
reaches this handler's catch; a chosen path first sets `currentPage := 1` and
then runs `loadPdf`. -/
def handleOpenPdf (s : MState) (dout : DialogOutcome) (lout : LoadOutcome)
    (dpr : Rat) (hasContainer : Bool) (rout : RenderOutcome) :
    MState × List RenderCall :=
  match dout with
  | .dialogFail msg => ({ s with error := some ("Error: " ++ msg) }, [])
  | .cancelled => (s, [])
  | .chosen path =>
      loadPdf { s with currentPage := 1 } path lout dpr hasContainer rout

/-- A file from `e.dataTransfer.files`: its MIME `type` and `path`. -/
structure DroppedFile where
  mimeType : String
  path : String
  deriving Repr, DecidableEq

/-- `MainPage.handleDrop` (`src/src/MainPage.tsx:196-210`): always clears
`isDragging`; with a non-empty file list, a file of type `application/pdf`
sets `currentPage := 1` and loads it, anything else only sets the error. -/
def handleDrop (s : MState) (files : List DroppedFile) (lout : LoadOutcome)
    (dpr : Rat) (hasContainer : Bool) (rout : RenderOutcome) :
    MState × List RenderCall :=
  let s0 := { s with isDragging := false }
  match files with
  | [] => (s0, [])
  | file :: _ =>
      if file.mimeType = "application/pdf" then
        loadPdf { s0 with currentPage := 1 } file.path lout dpr hasContainer rout
      else
        ({ s0 with error := some "Please drop a valid PDF file" }, [])

/-- JavaScript `parseInt(value, 10)`: skip leading whitespace, optional sign,
then leading decimal digits; `NaN` (here `none`) when no digit follows. -/
def parseIntJs (s : String) : Option Int :=
  let cs := s.toList.dropWhile (fun c => c == ' ' || c == '\t' || c == '\n' || c == '\r')
  let signed : Int × List Char :=
    match cs with
    | '-' :: r => (-1, r)
    | '+' :: r => (1, r)
    | r => (1, r)
  let digits := signed.2.takeWhile Char.isDigit
  if digits.isEmpty then none
  else some (signed.1 * ((digits.foldl (fun a c => a * 10 + (c.toNat - '0'.toNat)) 0 : Nat) : Int))

/-- `MainPage.handlePageInput` (`src/src/MainPage.tsx:171-176`): parse the
text field, and when the parse is a number, delegate to `goToPage`. -/
def handlePageInput (s : MState) (input : String) (dpr : Rat)
    (hasContainer : Bool) (out : RenderOutcome) : MState × List RenderCall :=
  match parseIntJs input with
  | none => (s, [])
  | some n => goToPage s n dpr hasContainer out

/-! The alternative viewer in `src/src/App.tsx`. -/

/-- The React state of `App` (`src/src/App.tsx:14-18`). -/
structure AppState where
  pdfUrl : Option String
  error : Option String
  numPages : Int
  currentPage : Int
  scale : Rat
  deriving Repr, DecidableEq

/-- `App.loadPdf` (`src/src/App.tsx:20-37`): on success store `numPages` and
the path and clear the error; on failure set a fixed message. -/
def appLoadPdf (a : AppState) (filePath : String) (lout : LoadOutcome) :
    AppState :=
  match lout with
  | .loadOk doc =>
      { a with numPages := doc.numPages, pdfUrl := some filePath, error := none }
  | .loadFail _ =>
      { a with error := some "Failed to load PDF. Please try another file." }

/-- `App.handleOpenPdf` (`src/src/App.tsx:39-49`): a `null` path does
nothing; a rejection of `openPdf()` sets a fixed error. -/
def appHandleOpenPdf (a : AppState) (dout : DialogOutcome)
    (lout : LoadOutcome) : AppState :=
  match dout with
  | .dialogFail _ => { a with error := some "Failed to open file dialog" }
  | .cancelled => a
  | .chosen path => appLoadPdf a path lout

/-- One `pdfPage.render(renderContext)` call issued by `PdfViewer`'s render
effect (`src/src/App.tsx:122-144`): the held page, the scale handed to
`getViewport`, the canvas buffer dimensions set before the call
(`canvas.width = viewport.width`, no device-pixel-ratio factor in this
component), and whether the container was cleared first. -/
structure ViewerCall where
  page : Int
  scale : Rat
  canvasWidth : Rat
  canvasHeight : Rat
  cleared : Bool
  deriving Repr, DecidableEq

/-- The render effect of `PdfViewer` (`src/src/App.tsx:122-144`): nothing
happens without a held page or without the container element; otherwise the
container is cleared, the viewport is computed at `scale` (its dimensions
`vw`, `vh` come from the library) and exactly one render call is issued with
the canvas sized to the raw viewport dimensions. -/
def viewerRenderEffect (pdfPage : Option Int) (scale vw vh : Rat)
    (hasContainer : Bool) : List ViewerCall :=
  match pdfPage with
  | none => []
  | some p => if hasContainer then [⟨p, scale, vw, vh, true⟩] else []

/-- The props of `PdfViewer` (`src/src/App.tsx:100`). -/
structure ViewerProps where
  file : String
  pageNumber : Int
  scale : Rat
  deriving Repr, DecidableEq

/-- The state of `PdfViewer`: the held page object (tagged by its page
number) and the loading flag. -/
structure ViewerState where
  pdfPage : Option Int
  loading : Bool
  deriving Repr, DecidableEq

/-- Outcome of the page-load effect's async chain (`getDocument`/`getPage`). -/
inductive PageLoadOutcome where
  | ok
  | fail
  deriving Repr, DecidableEq

/-- One prop update of `PdfViewer` (`src/src/App.tsx:100-147`): the load
effect has dependency list `[file, pageNumber]` and replaces `pdfPage` on
success (on failure the error is only logged and `pdfPage` is kept); the
render effect has dependency list `[pdfPage, scale]` and runs
`viewerRenderEffect` when either changed. -/
def viewerUpdate (old : ViewerProps) (st : ViewerState) (new : ViewerProps)
    (pout : PageLoadOutcome) (vw vh : Rat) (hasContainer : Bool) :
    ViewerState × List ViewerCall :=
  let st1 :=
    if new.file ≠ old.file ∨ new.pageNumber ≠ old.pageNumber then
      match pout with
      | .ok => { pdfPage := some new.pageNumber, loading := false }
      | .fail => { st with loading := false }
    else st
  let calls :=
    if st1.pdfPage ≠ st.pdfPage ∨ new.scale ≠ old.scale then
      viewerRenderEffect st1.pdfPage new.scale vw vh hasContainer
    else []
  (st1, calls)

/-- The navigation invariant of the spec: `1 ≤ currentPage ≤ totalPages`
whenever `totalPages > 0`. -/
def navInv (s : MState) : Prop :=
  0 < s.totalPages → 1 ≤ s.currentPage ∧ s.currentPage ≤ s.totalPages

instance (s : MState) : Decidable (navInv s) := by
  unfold navInv; infer_instance

/-! Helper lemmas shared by several claim theorems. -/

theorem loadPdf_currentPage (s : MState) (p : String) (lout : LoadOutcome)
    (dpr : Rat) (hc : Bool) (rout : RenderOutcome) :
    (loadPdf s p lout dpr hc rout).1.currentPage = s.currentPage := by
  cases lout with
  | loadFail m => rfl
  | loadOk doc =>
    cases hc with
    | false => rfl
    | true => cases rout <;> rfl

theorem loadPdf_totalPages (s : MState) (p : String) (dpr : Rat) (hc : Bool)
    (rout : RenderOutcome) (m : String) (doc : PdfDoc) :
    (loadPdf s p (.loadFail m) dpr hc rout).1.totalPages = s.totalPages ∧
    (loadPdf s p (.loadOk doc) dpr hc rout).1.totalPages = doc.numPages := by
  refine ⟨rfl, ?_⟩
  cases hc with
  | false => rfl
  | true => cases rout <;> rfl

theorem navInv_loadPdf (s : MState) (p : String) (lout : LoadOutcome)
    (dpr : Rat) (hc : Bool) (rout : RenderOutcome) (hcp : s.currentPage = 1) :
    navInv (loadPdf s p lout dpr hc rout).1 := by
  intro hp
  rw [loadPdf_currentPage, hcp]
  refine ⟨le_refl 1, ?_⟩
  cases lout with
  | loadFail m =>
    rw [(loadPdf_totalPages s p dpr hc rout m ⟨0⟩).1] at hp ⊢
    omega
  | loadOk doc =>
    rw [(loadPdf_totalPages s p dpr hc rout "" doc).2] at hp ⊢
    omega

theorem goToPage_guard_noop (s : MState) (n : Int) (dpr : Rat) (hc : Bool)
    (rout : RenderOutcome) (hg : s.pdf = none ∨ n < 1 ∨ n > s.totalPages) :
    goToPage s n dpr hc rout = (s, []) := by
  unfold goToPage
  rw [if_pos hg]

theorem goToPage_nav (s : MState) (n : Int) (dpr : Rat) (hc : Bool)
    (rout : RenderOutcome) (hg : ¬(s.pdf = none ∨ n < 1 ∨ n > s.totalPages)) :
    (goToPage s n dpr hc rout).1.currentPage = n ∧
    (goToPage s n dpr hc rout).1.totalPages = s.totalPages := by
  simp only [goToPage, if_neg hg]
  cases hc with
  | false => exact ⟨rfl, rfl⟩
  | true =>
    rw [if_pos rfl]
    split <;> exact ⟨rfl, rfl⟩

theorem navInv_goToPage (s : MState) (n : Int) (dpr : Rat) (hc : Bool)
    (rout : RenderOutcome) (h : navInv s) : navInv (goToPage s n dpr hc rout).1 := by
  by_cases hg : s.pdf = none ∨ n < 1 ∨ n > s.totalPages
  · rw [goToPage_guard_noop s n dpr hc rout hg]
    exact h
  · obtain ⟨h1, h2⟩ := goToPage_nav s n dpr hc rout hg
    push_neg at hg
    intro _
    rw [h1, h2]
    exact ⟨hg.2.1, hg.2.2⟩

/-! Claim theorems. -/

/-- C1: for every sequence of the public operations (open a file, go to a
page, drop a file, type into the page input), the navigation state satisfies
`1 ≤ currentPage ≤ totalPages` whenever `totalPages > 0`; every operation
preserves this invariant from any state already satisfying it (and the
initial state satisfies it vacuously), so it holds along every sequence. -/
theorem nav_invariant_preserved (s : MState) (dout : DialogOutcome)
    (lout : LoadOutcome) (dpr : Rat) (hc : Bool) (rout : RenderOutcome)
    (n : Int) (files : List DroppedFile) (input : String) (h : navInv s) :
    navInv initState ∧
    navInv (handleOpenPdf s dout lout dpr hc rout).1 ∧
    navInv (goToPage s n dpr hc rout).1 ∧
    navInv (handleDrop s files lout dpr hc rout).1 ∧
    navInv (handlePageInput s input dpr hc rout).1 := by
  refine ⟨by decide, ?_, navInv_goToPage s n dpr hc rout h, ?_, ?_⟩
  · cases dout with
    | dialogFail m => exact h
    | cancelled => exact h
    | chosen path => exact navInv_loadPdf _ path lout dpr hc rout rfl
  · cases files with
    | nil => exact h
    | cons f rest =>
      simp only [handleDrop]
      by_cases hm : f.mimeType = "application/pdf"
      · rw [if_pos hm]
        exact navInv_loadPdf _ f.path lout dpr hc rout rfl
      · rw [if_neg hm]
        exact h
  · unfold handlePageInput
    cases hpi : parseIntJs input with
    | none => exact h
    | some m => exact navInv_goToPage s m dpr hc rout h

/-- Witness for C1 at a concrete state: a loaded 5-page document at page 3. -/
theorem nav_invariant_preserved_witness :
    navInv { initState with pdf := some ⟨5⟩, totalPages := 5, currentPage := 3 } ∧
    navInv (handleOpenPdf { initState with pdf := some ⟨5⟩, totalPages := 5, currentPage := 3 }
      (.chosen "a.pdf") (.loadOk ⟨2⟩) 1 true (.ok 100 200)).1 :=
  ⟨by decide,
   (nav_invariant_preserved
      { initState with pdf := some ⟨5⟩, totalPages := 5, currentPage := 3 }
      (.chosen "a.pdf") (.loadOk ⟨2⟩) 1 true (.ok 100 200) 4 [] ""
      (by decide)).2.1⟩

/-- C2: for every loaded document and every `n` with
`1 ≤ n ≤ totalPages`, `goToPage n` (with the viewer container mounted and a
succeeding environment) sets `currentPage = n` and issues exactly one render
call, and that call is for page `n`. -/
theorem goToPage_valid_renders (s : MState) (d : PdfDoc) (n : Int)
    (dpr vw vh : Rat) (hdoc : s.pdf = some d) (h1 : 1 ≤ n)
    (h2 : n ≤ s.totalPages) :
    (goToPage s n dpr true (.ok vw vh)).1.currentPage = n ∧
    (goToPage s n dpr true (.ok vw vh)).2.map RenderCall.page = [n] := by
  have hg : ¬(s.pdf = none ∨ n < 1 ∨ n > s.totalPages) := by
    push_neg
    exact ⟨by simp [hdoc], by omega, by omega⟩
  refine ⟨(goToPage_nav s n dpr true (.ok vw vh) hg).1, ?_⟩
  simp only [goToPage, if_neg hg, if_true]
  rw [hdoc]
  rfl

/-- Witness for C2: navigating a loaded 5-page document to page 3. -/
theorem goToPage_valid_renders_witness :
    (goToPage { initState with pdf := some ⟨5⟩, totalPages := 5 } 3 1 true
        (.ok 100 200)).1.currentPage = 3 ∧
    (goToPage { initState with pdf := some ⟨5⟩, totalPages := 5 } 3 1 true
        (.ok 100 200)).2.map RenderCall.page = [3] :=
  goToPage_valid_renders { initState with pdf := some ⟨5⟩, totalPages := 5 }
    ⟨5⟩ 3 1 100 200 rfl (by decide) (by decide)

/-- C3: for `n < 1` or `n > totalPages`, and also whenever no document is
loaded, `goToPage n` returns the state unchanged in every component and
issues no render call, whatever the container and environment would do. -/
theorem goToPage_out_of_range_noop (s : MState) (n : Int) (dpr : Rat)
    (hc : Bool) (out : RenderOutcome)
    (h : n < 1 ∨ n > s.totalPages ∨ s.pdf = none) :
    goToPage s n dpr hc out = (s, []) :=
  goToPage_guard_noop s n dpr hc out (by tauto)

/-- Witness for C3: page 7 of a 5-page document, and page 0. -/
theorem goToPage_out_of_range_noop_witness :
    goToPage { initState with pdf := some ⟨5⟩, totalPages := 5 } 7 1 true
        (.ok 100 200)
      = ({ initState with pdf := some ⟨5⟩, totalPages := 5 }, []) ∧
    goToPage { initState with pdf := some ⟨5⟩, totalPages := 5 } 0 1 true
        (.ok 100 200)
      = ({ initState with pdf := some ⟨5⟩, totalPages := 5 }, []) :=
  ⟨goToPage_out_of_range_noop { initState with pdf := some ⟨5⟩, totalPages := 5 }
      7 1 true (.ok 100 200) (by decide),
   goToPage_out_of_range_noop { initState with pdf := some ⟨5⟩, totalPages := 5 }
      0 1 true (.ok 100 200) (by decide)⟩

/-- A concrete state with a loaded 5-page document open at page 3, used to
exercise the error paths. -/
def c4State : MState :=
  { error := none, isLoading := false, title := "doc.pdf", currentPage := 3,
    totalPages := 5, isDragging := false, pdf := some ⟨5⟩ }

/-- C4 counterexample: from a state at `currentPage = 3`, opening a file
whose document load fails is a failing operation that is caught and sets a
visible message, yet `currentPage` ends at `1`, not at its pre-operation
value `3` — `handleOpenPdf` runs `setCurrentPage(1)` before `loadPdf`
(`src/src/MainPage.tsx:143-145`), so the navigation state is not left
exactly as it was. -/
theorem error_leaves_nav_unchanged_cex :
    ((handleOpenPdf c4State (.chosen "bad.pdf") (.loadFail "boom") 1 true
        (.ok 0 0)).1.error = some "Error loading PDF: boom") ∧
    (handleOpenPdf c4State (.chosen "bad.pdf") (.loadFail "boom") 1 true
        (.ok 0 0)).1.currentPage ≠ c4State.currentPage := by
  exact ⟨rfl, by decide⟩

/-- C4 amended: every failing operation is caught and sets a user-visible
message, and leaves the navigation state unchanged except that (a) the open
handler sets `currentPage := 1` before loading, so a dialog-chosen load
failure ends at page 1, (b) `goToPage n` sets `currentPage := n` before
rendering, so a render failure ends at page `n`, and (c) when the document
itself loaded and only the first render failed, the new `totalPages`,
handle and title are already in place. A dialog failure and an
unsupported-type drop leave `currentPage` and `totalPages` untouched. -/
theorem errors_caught_and_reported (s : MState) (m path : String)
    (f : DroppedFile) (d d2 : PdfDoc) (n : Int) (dpr vw vh : Rat) (hc : Bool)
    (lout : LoadOutcome) (rout : RenderOutcome)
    (hmime : f.mimeType ≠ "application/pdf")
    (hdoc : s.pdf = some d) (h1 : 1 ≤ n) (h2 : n ≤ s.totalPages) :
    (handleOpenPdf s (.dialogFail m) lout dpr hc rout
        = ({ s with error := some ("Error: " ++ m) }, [])) ∧
    (handleOpenPdf s (.chosen path) (.loadFail m) dpr hc rout
        = ({ s with
              currentPage := 1, isLoading := false,
              error := some ("Error loading PDF: " ++ m) }, [])) ∧
    (handleDrop s [f] lout dpr hc rout
        = ({ s with
              isDragging := false,
              error := some "Please drop a valid PDF file" }, [])) ∧
    ((goToPage s n dpr true (.renderFail m vw vh)).1
        = { s with
              currentPage := n, isLoading := false,
              error := some ("Error navigating to page: " ++ m) }) ∧
    ((handleOpenPdf s (.chosen path) (.loadOk d2) dpr true (.getPageFail m)).1
        = { s with
              currentPage := 1, pdf := some d2, totalPages := d2.numPages,
              title := fileNameOf path, isLoading := false,
              error := some ("Error loading PDF: " ++ m) }) := by
  have hg : ¬(s.pdf = none ∨ n < 1 ∨ n > s.totalPages) := by
    push_neg
    exact ⟨by simp [hdoc], by omega, by omega⟩
  refine ⟨rfl, rfl, ?_, ?_, rfl⟩
  · simp only [handleDrop]
    rw [if_neg hmime]
  · simp only [goToPage, if_neg hg, if_true]
    rw [hdoc]
    rfl

/-- Witness for the amended C4 at `c4State`: a failing load of a chosen file
ends at page 1 with the message set, and a failing render during `goToPage 2`
ends at page 2 with the message set. -/
theorem errors_caught_and_reported_witness :
    (handleOpenPdf c4State (.chosen "b.pdf") (.loadFail "dlg") 1 true
        (.ok 0 0)).1.error = some "Error loading PDF: dlg" ∧
    (handleOpenPdf c4State (.chosen "b.pdf") (.loadFail "dlg") 1 true
        (.ok 0 0)).1.currentPage = 1 ∧
    (goToPage c4State 2 1 true (.renderFail "dlg" 0 0)).1.currentPage = 2 ∧
    (goToPage c4State 2 1 true (.renderFail "dlg" 0 0)).1.error
        = some "Error navigating to page: dlg" := by
  have h := errors_caught_and_reported c4State "dlg" "b.pdf"
    ⟨"text/plain", "x.txt"⟩ ⟨5⟩ ⟨2⟩ 2 1 0 0 true (.loadOk ⟨2⟩) (.ok 0 0)
    (by decide) rfl (by decide) (by decide)
  rw [h.2.1, h.2.2.2.1]
  exact ⟨rfl, rfl, rfl, rfl⟩

/-- C5: opening a file whose document loads successfully with `k` pages (and
whose first-page render succeeds) sets `totalPages = k`, `currentPage = 1`,
stores the handle, and reaches the ready state (`isLoading = false`,
`error = none`). -/
theorem open_success_sets_pages (s : MState) (path : String) (doc : PdfDoc)
    (dpr vw vh : Rat) :
    (handleOpenPdf s (.chosen path) (.loadOk doc) dpr true
        (.ok vw vh)).1.totalPages = doc.numPages ∧
    (handleOpenPdf s (.chosen path) (.loadOk doc) dpr true
        (.ok vw vh)).1.currentPage = 1 ∧
    (handleOpenPdf s (.chosen path) (.loadOk doc) dpr true
        (.ok vw vh)).1.pdf = some doc ∧
    (handleOpenPdf s (.chosen path) (.loadOk doc) dpr true
        (.ok vw vh)).1.isLoading = false ∧
    (handleOpenPdf s (.chosen path) (.loadOk doc) dpr true
        (.ok vw vh)).1.error = none :=
  ⟨rfl, rfl, rfl, rfl, rfl⟩

/-- C6: dropping a file whose MIME type is not `application/pdf` sets the
error message and leaves `currentPage`, `totalPages` and the document handle
(indeed every field but `error` and the drag highlight) unchanged, loading
and rendering nothing; so only `application/pdf` files are accepted. -/
theorem drop_non_pdf_rejected (s : MState) (f : DroppedFile)
    (rest : List DroppedFile) (lout : LoadOutcome) (dpr : Rat) (hc : Bool)
    (rout : RenderOutcome) (h : f.mimeType ≠ "application/pdf") :
    handleDrop s (f :: rest) lout dpr hc rout
      = ({ s with
            isDragging := false,
            error := some "Please drop a valid PDF file" }, []) := by
  simp only [handleDrop]
  rw [if_neg h]

/-- Witness for C6: dropping a plain-text file on a loaded document. -/
theorem drop_non_pdf_rejected_witness :
    handleDrop c4State [⟨"text/plain", "notes.txt"⟩] (.loadOk ⟨2⟩) 1 true
        (.ok 0 0)
      = ({ c4State with
            isDragging := false,
            error := some "Please drop a valid PDF file" }, []) :=
  drop_non_pdf_rejected c4State ⟨"text/plain", "notes.txt"⟩ [] (.loadOk ⟨2⟩)
    1 true (.ok 0 0) (by decide)

/-- C7: when a document is open (`PdfViewer` holds the page object for the
current page) and only the scale prop changes, the update re-renders exactly
that page at the new scale; the viewer state and in particular the page
number are unchanged (the new props keep `pageNumber` by construction). -/
theorem scale_change_rerenders (p : ViewerProps) (st : ViewerState)
    (pout : PageLoadOutcome) (s2 vw vh : Rat) (n : Int)
    (hpage : st.pdfPage = some n) (hne : s2 ≠ p.scale) :
    viewerUpdate p st { p with scale := s2 } pout vw vh true
      = (st, [⟨n, s2, vw, vh, true⟩]) ∧
    ({ p with scale := s2 } : ViewerProps).pageNumber = p.pageNumber := by
  refine ⟨?_, rfl⟩
  simp only [viewerUpdate, viewerRenderEffect]
  rw [if_neg (by simp)]
  rw [if_pos (Or.inr (by simpa using hne))]
  rw [hpage]
  simp

/-- Witness for C7: page 2 held, scale changed from 3/2 to 2. -/
theorem scale_change_rerenders_witness :
    viewerUpdate ⟨"f.pdf", 2, 3/2⟩ ⟨some 2, false⟩
        { (⟨"f.pdf", 2, 3/2⟩ : ViewerProps) with scale := 2 } .ok 100 200 true
      = (⟨some 2, false⟩, [⟨2, 2, 100, 200, true⟩]) ∧
    ({ (⟨"f.pdf", 2, 3/2⟩ : ViewerProps) with scale := 2 } : ViewerProps).pageNumber
      = (⟨"f.pdf", 2, 3/2⟩ : ViewerProps).pageNumber :=
  scale_change_rerenders ⟨"f.pdf", 2, 3/2⟩ ⟨some 2, false⟩ .ok 2 100 200 2
    rfl (by norm_num)

/-- C8 counterexample: `PdfViewer`'s render effect (`src/src/App.tsx:133-134`)
never consults `window.devicePixelRatio` — the embedded effect has no
device-pixel-ratio input at all — so in an environment with device pixel
ratio 2 the single render call for viewport width 100 carries canvas width
100, not the claimed 100 × 2. -/
theorem render_canvas_dpr_cex :
    (viewerRenderEffect (some 1) (3/2) 100 200 true).map ViewerCall.canvasWidth
      = [100] ∧
    (100 : Rat) ≠ 100 * 2 := by
  exact ⟨rfl, by norm_num⟩

/-- C8 amended: on a render trigger, `MainPage.renderPage` clears the
container, sizes the canvas to the viewport dimensions multiplied by the
device pixel ratio, and issues exactly one render call for the requested
page (with the same factor in the transform); `App`'s `PdfViewer` render
effect also clears the container and issues exactly one render call for the
held page at the given scale, but sizes the canvas to the raw viewport
dimensions, with no device-pixel-ratio factor. -/
theorem render_trigger_canvas (pdf : PdfDoc) (pageNum p : Int)
    (dpr vw vh scale : Rat) (hdpr : ¬dpr = 0) :
    renderPage (some pdf) pageNum dpr (.ok vw vh)
      = .ok [⟨pageNum, vw * dpr, vh * dpr, dpr, true⟩] ∧
    viewerRenderEffect (some p) scale vw vh true
      = [⟨p, scale, vw, vh, true⟩] := by
  refine ⟨?_, rfl⟩
  simp only [renderPage, if_neg hdpr]

/-- Witness for the amended C8 at device pixel ratio 2 and a 100 × 200
viewport. -/
theorem render_trigger_canvas_witness :
    renderPage (some ⟨5⟩) 3 2 (.ok 100 200)
      = .ok [⟨3, 100 * 2, 200 * 2, 2, true⟩] ∧
    viewerRenderEffect (some 3) (3/2) 100 200 true
      = [⟨3, 3/2, 100, 200, true⟩] :=
  render_trigger_canvas ⟨5⟩ 3 3 2 100 200 (3/2) (by norm_num)

/-- C9: when `openPdf()` resolves `null` (the user cancelled the dialog),
`MainPage.handleOpenPdf` returns the state unchanged in every component and
issues no load and no render; `App.handleOpenPdf` likewise. -/
theorem dialog_cancel_noop (s : MState) (a : AppState) (lout : LoadOutcome)
    (dpr : Rat) (hc : Bool) (rout : RenderOutcome) :
    handleOpenPdf s .cancelled lout dpr hc rout = (s, []) ∧
    appHandleOpenPdf a .cancelled lout = a :=
  ⟨rfl, rfl⟩

/-- C10: a complete run of `loadPdf` always ends with `isLoading = false`
(the `finally` block), and a complete run of `goToPage` started outside the
loading state — the only states in which its triggering controls are enabled
— also ends with `isLoading = false`, whether it succeeds, fails, or returns
early on the guard. -/
theorem run_resets_isLoading (s : MState) (path : String)
    (lout : LoadOutcome) (dpr : Rat) (hc : Bool) (rout : RenderOutcome)
    (n : Int) (h : s.isLoading = false) :
    (loadPdf s path lout dpr hc rout).1.isLoading = false ∧
    (goToPage s n dpr hc rout).1.isLoading = false := by
  constructor
  · cases lout with
    | loadFail m => rfl
    | loadOk doc =>
      cases hc with
      | false => rfl
      | true => cases rout <;> rfl
  · by_cases hg : s.pdf = none ∨ n < 1 ∨ n > s.totalPages
    · rw [goToPage_guard_noop s n dpr hc rout hg]
      exact h
    · simp only [goToPage, if_neg hg]
      cases hc with
      | false => rfl
      | true =>
        rw [if_pos rfl]
        split <;> rfl

/-- Witness for C10: a failing load and an out-of-range navigation from the
initial state. -/
theorem run_resets_isLoading_witness :
    (loadPdf initState "a.pdf" (.loadFail "x") 1 true (.ok 0 0)).1.isLoading
      = false ∧
    (goToPage initState 9 1 true (.ok 0 0)).1.isLoading = false :=
  run_resets_isLoading initState "a.pdf" (.loadFail "x") 1 true (.ok 0 0) 9 rfl

end ElectronPdfjs
